import Mathlib

/-!
Verification of the emergency-response analysis pipeline.

Shallow embedding of the core of `backend/app/services.py`,
`backend/app/cost_protection.py` and the analysis route of
`backend/app/routes.py`. Python strings are Lean `String`s, Python
string methods are modelled at the `List Char` level (Lean's built-in
`String.map` does not reduce in the kernel), Python `dict`s appearing as
literal tables are association lists (Python dicts iterate in insertion
order, so an ordered association list is the faithful model), wall-clock
time is an explicit `Nat` parameter (seconds), and floating-point
coordinates are modelled as rationals.
-/

/- ### Python string primitives -/

/-- Model of Python `str.lower()` (ASCII-faithful; the keyword tables and
all inputs of interest are ASCII). -/
def pyLower (s : String) : String := ⟨s.data.map Char.toLower⟩

/-- Boolean test: first list is an initial segment of the second. -/
def isPrefixB : List Char → List Char → Bool
  | [], _ => true
  | _ :: _, [] => false
  | a :: as, b :: bs => a == b && isPrefixB as bs

/-- Boolean test: `needle` occurs contiguously inside the second list. -/
def hasSubList (needle : List Char) : List Char → Bool
  | [] => isPrefixB needle []
  | c :: t => isPrefixB needle (c :: t) || hasSubList needle t

/-- Model of Python `sub in hay` for strings (substring containment). -/
def pyContains (hay sub : String) : Bool := hasSubList sub.data hay.data

/-- Model of Python `list.insert(i, x)` for a non-negative index
(`l.insert(i, x)` splices `x` in front of position `i`, appending when
`i` is past the end). -/
def pyInsert (i : Nat) (x : α) (l : List α) : List α :=
  l.take i ++ x :: l.drop i

/-- Model of Python `round(x, 2)` on coordinates: round to two decimal
places, to the nearest hundredth. (CPython rounds ties on binary floats
to even; no claim in scope depends on tie behaviour, only on equal
inputs rounding equally.) -/
def round2 (q : ℚ) : ℚ := ((q * 100 + 1 / 2).floor : ℚ) / 100

/- ### Data model (`backend/app/models.py`) -/

/-- `LocationContext` (models.py): latitude/longitude plus optional
address. The unused optional fields (country/state/city) are omitted —
`services.py` never reads them. -/
structure LocationContext where
  latitude : ℚ
  longitude : ℚ
  address : Option String := none
deriving DecidableEq, Repr

/-- Rendering of the f-string `"Lat: {lat}, Lon: {lon}"` used for the
`location`/`details` fields. -/
def latLonStr (lat lon : ℚ) : String :=
  "Lat: " ++ toString lat ++ ", Lon: " ++ toString lon

/-- The `enhanced_response` dict built by
`EmergencyAnalysisService._ai_analysis` / `_enhanced_rule_based_analysis`
(services.py lines 300–317 and 355–372): its fixed key set, as a record. -/
structure EnhancedResponse where
  emergency_type : String
  severity : String
  assessment : String
  recommendations : List String
  first_aid_steps : List String
  warning_signs : List String
  estimated_response_time : String
  emergency_number : String
  accident_type : String
  first_aid_tips : List String
  location : String
  details : String
  severity_level : String
  recommended_actions : List String
  response_time_needed : String
  priority_level : String
deriving DecidableEq, Repr

/-- `AccidentReport` (models.py) restricted to the fields
`_get_fallback_response` populates (the remaining pydantic fields keep
their defaults and are not read by any claim). -/
structure AccidentReport where
  accident_type : String
  first_aid_tips : List String
  location : String
  details : String
  severity_level : String
  recommended_actions : List String
deriving DecidableEq, Repr

/- ### SimpleCache (services.py lines 19–34) -/

/-- The cache store: key ↦ `(data, expires)` as in `self.cache`.
Modelled as a function to keep `get`'s lazy eviction observable. -/
def CacheStore (κ V : Type) := κ → Option (V × Nat)

def CacheStore.empty (κ V : Type) : CacheStore κ V := fun _ => none

/-- `SimpleCache.get`: a present entry is returned while `now < expires`;
an entry whose expiry has passed is deleted and treated as absent.
`datetime.now()` is the explicit `now` argument. -/
def SimpleCache.get [DecidableEq κ] (c : CacheStore κ V) (now : Nat) (key : κ) :
    Option V × CacheStore κ V :=
  match c key with
  | some (data, expires) =>
      if now < expires then (some data, c)
      else (none, fun k => if k = key then none else c k)
  | none => (none, c)

/-- `SimpleCache.set`: store `(data, now + ttl_seconds)` under `key`,
overwriting unconditionally. -/
def SimpleCache.set [DecidableEq κ] (c : CacheStore κ V) (now : Nat) (key : κ)
    (data : V) (ttl_seconds : Nat) : CacheStore κ V :=
  fun k => if k = key then some (data, now + ttl_seconds) else c k

/- ### Deterministic classifier (services.py lines 330–601) -/

namespace EmergencyAnalysisService

/-- Critical keyword set of `_quick_severity_check`. -/
def critical_words : List String :=
  ["unconscious", "not breathing", "severe bleeding", "chest pain",
   "heart attack", "stroke"]

/-- High-tier keyword set of `_quick_severity_check`. -/
def high_words : List String :=
  ["bleeding", "accident", "fall", "burn", "pain", "injury",
   "difficulty breathing"]

/-- `_quick_severity_check` (services.py lines 376–389): critical keywords
are checked first, then high, else moderate. (The `lru_cache` decorator
only memoises this pure function.) -/
def quick_severity_check (message : String) : String :=
  let message_lower := pyLower message
  if critical_words.any (fun word => pyContains message_lower word) then
    "critical"
  else if high_words.any (fun word => pyContains message_lower word) then
    "high"
  else
    "moderate"

/-- `emergency_patterns` of `_enhanced_classify_emergency`
(services.py lines 395–404), in dict insertion order. -/
def emergency_patterns : List (String × List String) :=
  [("Cardiac Emergency", ["chest pain", "heart attack", "cardiac", "heart"]),
   ("Respiratory Emergency", ["breathing", "breathe", "airway", "choking", "asthma"]),
   ("Vehicle Accident", ["accident", "crash", "collision", "hit", "car", "vehicle"]),
   ("Fall Injury", ["fall", "fell", "slip", "stairs"]),
   ("Burn Injury", ["burn", "fire", "hot", "steam"]),
   ("Bleeding/Laceration", ["cut", "bleeding", "blood", "wound"]),
   ("Stroke", ["stroke", "slurred speech", "face drooping", "weakness"]),
   ("Allergic Reaction", ["allergic", "reaction", "swelling", "hives"])]

/-- `_enhanced_classify_emergency` (services.py lines 391–410): first
category in table order with a matching keyword wins; default
"General Emergency". -/
def enhanced_classify_emergency (message : String) : String :=
  let message_lower := pyLower message
  match emergency_patterns.find?
      (fun p => p.2.any (fun keyword => pyContains message_lower keyword)) with
  | some p => p.1
  | none => "General Emergency"

/-- `tips_map` of `_get_enhanced_first_aid_tips` (services.py lines 415–456). -/
def tips_map : List (String × List String) :=
  [("Cardiac Emergency",
    ["Call 911 immediately", "Have person sit down and rest",
     "Loosen tight clothing", "If unconscious, begin CPR",
     "Look for aspirin if not allergic", "Stay calm and reassure person"]),
   ("Respiratory Emergency",
    ["Call 911 immediately", "Help person sit upright",
     "Loosen tight clothing", "If choking, perform Heimlich maneuver",
     "Look for rescue inhaler or EpiPen", "Monitor breathing continuously"]),
   ("Vehicle Accident",
    ["Ensure scene safety first", "Do not move person unless danger",
     "Check consciousness and breathing", "Control bleeding with pressure",
     "Keep person warm and still", "Call 911 and stay with person"]),
   ("Fall Injury",
    ["Do not move if spinal injury suspected",
     "Check consciousness and breathing", "Look for head or neck pain",
     "Apply ice to swelling areas", "Elevate limbs if no fracture",
     "Monitor for shock signs"]),
   ("Burn Injury",
    ["Remove from heat source safely", "Cool with running water 10-20 min",
     "Do not use ice or butter", "Cover with clean cloth",
     "Do not break blisters", "Remove jewelry before swelling"])]

/-- Default first-aid tips of `_get_enhanced_first_aid_tips`
(services.py lines 458–465). -/
def default_tips : List String :=
  ["Ensure safety first", "Call 911 immediately",
   "Check consciousness and breathing", "Provide comfort and reassurance",
   "Stay with person until help arrives",
   "Give clear information to responders"]

/-- `_get_enhanced_first_aid_tips` (services.py lines 412–471): look up
the category table (generic default), on "critical" severity
`insert(1, "Be prepared to perform CPR")`, then truncate with `[:6]`. -/
def get_enhanced_first_aid_tips (accident_type severity : String) : List String :=
  let base_tips := (tips_map.lookup accident_type).getD default_tips
  let base_tips :=
    if severity == "critical" then
      pyInsert 1 "Be prepared to perform CPR" base_tips
    else base_tips
  base_tips.take 6

/-- `_calculate_response_time` (services.py lines 473–480). -/
def calculate_response_time (severity : String) : String :=
  if severity == "critical" then "0-4 minutes (Life threatening)"
  else if severity == "high" then "4-8 minutes (Urgent)"
  else "8-15 minutes (Standard)"

/-- `priority_map` and `_get_priority_level` (services.py lines 482–490). -/
def get_priority_level (severity : String) : String :=
  let priority_map :=
    [("critical", "Priority 1 (Life threatening)"),
     ("high", "Priority 2 (Urgent)"),
     ("moderate", "Priority 3 (Standard)"),
     ("low", "Priority 4 (Non-urgent)")]
  (priority_map.lookup severity).getD "Priority 3 (Standard)"

/-- `_get_enhanced_recommended_actions` (services.py lines 492–508). -/
def get_enhanced_recommended_actions (emergency_type severity : String) :
    List String :=
  let actions :=
    ["Call 911 immediately", "Provide first aid as trained",
     "Stay with person until help arrives",
     "Give clear information to responders"]
  let actions :=
    if severity == "critical" then
      pyInsert 1 "Be prepared to perform CPR" actions
        ++ ["Clear path for emergency vehicles"]
    else actions
  if emergency_type == "Vehicle Accident" then
    actions ++ ["Turn on hazard lights if safe"]
  else actions

/-- `severity_descriptions` of `_generate_assessment` (services.py lines 533–538). -/
def severity_descriptions : List (String × String) :=
  [("critical", "This is a life-threatening emergency requiring immediate intervention."),
   ("high", "This is a serious emergency requiring urgent medical attention."),
   ("moderate", "This emergency requires prompt medical evaluation and care."),
   ("low", "This situation requires medical attention but is not immediately life-threatening.")]

/-- `type_assessments` of `_generate_assessment` (services.py lines 540–548). -/
def type_assessments : List (String × String) :=
  [("Vehicle Accident", "Multi-vehicle collision with potential trauma injuries. Risk of internal bleeding, fractures, and head injuries."),
   ("Heart Attack", "Cardiac emergency with risk of cardiac arrest. Time-critical situation requiring immediate intervention."),
   ("Fall Injury", "Trauma from fall with potential for fractures, head injury, or spinal damage."),
   ("Allergic Reaction", "Severe allergic response with risk of anaphylaxis and respiratory compromise."),
   ("Burn Injury", "Thermal injury requiring immediate cooling and wound care to prevent complications."),
   ("Respiratory Emergency", "Breathing difficulty requiring immediate airway management and oxygen support."),
   ("Stroke", "Neurological emergency requiring immediate medical intervention to prevent permanent damage.")]

/-- `_generate_assessment` (services.py lines 531–553). -/
def generate_assessment (accident_type severity : String) : String :=
  let base_assessment :=
    (severity_descriptions.lookup severity).getD
      "Emergency situation requiring medical attention."
  let specific_assessment :=
    (type_assessments.lookup accident_type).getD
      "Emergency situation based on reported symptoms."
  base_assessment ++ " " ++ specific_assessment

/-- `warning_map` of `_get_warning_signs` (services.py lines 557–593). -/
def warning_map : List (String × List String) :=
  [("Vehicle Accident",
    ["Loss of consciousness", "Severe bleeding that won\x27t stop",
     "Signs of spinal injury", "Difficulty breathing", "Severe head trauma"]),
   ("Heart Attack",
    ["Chest pain lasting more than 5 minutes", "Shortness of breath",
     "Nausea or vomiting", "Sweating and pale skin", "Loss of consciousness"]),
   ("Fall Injury",
    ["Unable to move or stand", "Severe pain in back or neck",
     "Confusion or disorientation", "Visible bone fractures", "Heavy bleeding"]),
   ("Allergic Reaction",
    ["Difficulty breathing or wheezing", "Swelling of face, lips, or throat",
     "Rapid pulse", "Dizziness or fainting", "Widespread rash or hives"]),
   ("Burn Injury",
    ["Burns on face, hands, or genitals", "Third-degree burns (white/charred)",
     "Burns larger than palm size", "Difficulty breathing", "Signs of shock"])]

/-- `_get_warning_signs` (services.py lines 555–601). -/
def get_warning_signs (accident_type : String) : List String :=
  (warning_map.lookup accident_type).getD
    ["Loss of consciousness", "Severe bleeding", "Difficulty breathing",
     "Severe pain", "Signs of shock"]

/-- `location_str` computation of `_enhanced_rule_based_analysis`
(services.py lines 346–348): the address overrides the lat/lon rendering
when present and truthy (a non-empty string). -/
def location_string (location : LocationContext) : String :=
  match location.address with
  | some a => if a == "" then latLonStr location.latitude location.longitude else a
  | none => latLonStr location.latitude location.longitude

/-- `_enhanced_rule_based_analysis` (services.py lines 330–374). -/
def enhanced_rule_based_analysis (message : String) (location : LocationContext) :
    EnhancedResponse :=
  let severity := quick_severity_check message
  let accident_type := enhanced_classify_emergency message
  let first_aid_tips := get_enhanced_first_aid_tips accident_type severity
  let response_time := calculate_response_time severity
  let location_str := location_string location
  let assessment := generate_assessment accident_type severity
  let recommendations := get_enhanced_recommended_actions accident_type severity
  let warning_signs := get_warning_signs accident_type
  { emergency_type := accident_type
    severity := severity
    assessment := assessment
    recommendations := recommendations
    first_aid_steps := first_aid_tips
    warning_signs := warning_signs
    estimated_response_time := response_time
    emergency_number := "911"
    accident_type := accident_type
    first_aid_tips := first_aid_tips
    location := location_str
    details := "Enhanced Analysis: " ++ message
    severity_level := severity
    recommended_actions := recommendations
    response_time_needed := response_time
    priority_level := get_priority_level severity }

/- ### AI analysis adapter (services.py lines 245–328) -/

/-- The provider's parsed JSON reply, field by field as `_ai_analysis`
reads it with `ai_response.get(...)`: every field may be missing. -/
structure AiRaw where
  emergency_type : Option String := none
  severity : Option String := none
  assessment : Option String := none
  recommendations : Option (List String) := none
  first_aid_steps : Option (List String) := none
  warning_signs : Option (List String) := none
  estimated_response_time : Option String := none
  emergency_number : Option String := none
deriving DecidableEq, Repr

/-- Outcome of the single `session.post` to the provider.
`ok` stands for HTTP 200 with a parseable JSON body; the other three
constructors are the failure branches of services.py lines 320–328. -/
inductive AiOutcome where
  | ok (raw : AiRaw)
  | badStatus (code : Nat)
  | timeout
  | failure
deriving DecidableEq, Repr

/-- An outcome on which the AI path does not produce its own response. -/
def AiOutcome.isFailure : AiOutcome → Bool
  | .ok _ => false
  | _ => true

/-- The `enhanced_response` dict built on provider success
(services.py lines 300–317): each field backfilled from a default when
the provider omitted it. -/
def ai_success_response (raw : AiRaw) (message : String)
    (location : LocationContext) : EnhancedResponse :=
  { emergency_type := raw.emergency_type.getD "Emergency Situation"
    severity := raw.severity.getD "moderate"
    assessment := raw.assessment.getD "Emergency situation requiring immediate attention."
    recommendations := raw.recommendations.getD
      ["Call 911 immediately", "Follow first aid steps",
       "Stay with person until help arrives"]
    first_aid_steps := raw.first_aid_steps.getD
      ["Assess the situation", "Ensure scene safety", "Check for responsiveness"]
    warning_signs := raw.warning_signs.getD
      ["Loss of consciousness", "Severe bleeding", "Difficulty breathing"]
    estimated_response_time := raw.estimated_response_time.getD "5-10 minutes"
    emergency_number := raw.emergency_number.getD "911"
    accident_type := raw.emergency_type.getD "Emergency Situation"
    first_aid_tips := (raw.first_aid_steps.getD []).take 6
    location := latLonStr location.latitude location.longitude
    details := "AI Analysis: " ++ message
    severity_level := raw.severity.getD "moderate"
    recommended_actions := raw.recommendations.getD []
    response_time_needed := raw.estimated_response_time.getD "Standard"
    priority_level := raw.severity.getD "medium" }

/-- `_ai_analysis` (services.py lines 245–328): on HTTP 200 normalize the
provider reply; on non-200 status, timeout, or any exception fall back to
the rule-based analysis. Totality of this Lean function mirrors the fact
that every failure is caught inside the method. -/
def ai_analysis (message : String) (location : LocationContext)
    (_scenario_type : String) (outcome : AiOutcome) : EnhancedResponse :=
  match outcome with
  | .ok raw => ai_success_response raw message location
  | .badStatus _ => enhanced_rule_based_analysis message location
  | .timeout => enhanced_rule_based_analysis message location
  | .failure => enhanced_rule_based_analysis message location

/-- `_get_fallback_response` (services.py lines 510–529): the last-resort
response built when the entire analysis body raised. -/
def get_fallback_response (message : String) (location : LocationContext) :
    AccidentReport :=
  { accident_type := "Emergency Situation"
    first_aid_tips :=
      ["Ensure safety first", "Call 911 immediately",
       "Check if person is conscious and breathing",
       "Provide comfort and reassurance",
       "Stay with person until help arrives"]
    location := latLonStr location.latitude location.longitude
    details := "Emergency situation: " ++ message
    severity_level := "moderate"
    recommended_actions :=
      ["Call emergency services immediately", "Provide basic first aid",
       "Stay calm and wait for help"] }

end EmergencyAnalysisService

/- ### Process environment -/

/-- A snapshot of `os.environ`. -/
def Environ := List (String × String)

/-- Model of Python `os.getenv(key, default)`. -/
def pyGetenv (environ : Environ) (key default : String) : String :=
  ((environ : List (String × String)).lookup key).getD default

/- ### Cost protection (cost_protection.py) -/

namespace CostProtection

/-- The parsed content of the usage file `api_usage.json`:
`usage` maps a day string to per-request-type counters, `daily_limits`
maps a request type to its cap. (The float cost accumulators, stored
under separate `*_cost` keys, are not read by any claim and are omitted.) -/
structure UsageData where
  usage : List (String × List (String × Nat))
  daily_limits : List (String × Nat)
deriving DecidableEq, Repr

/-- `is_demo_mode` (cost_protection.py lines 36–38):
`os.getenv("DEMO_MODE", "true").lower() == "true"` — note the default is
"true", so demo mode is ON when the variable is unset. -/
def is_demo_mode (environ : Environ) : Bool :=
  pyLower (pyGetenv environ "DEMO_MODE" "true") == "true"

/-- `can_make_request` (cost_protection.py lines 55–75). The usage-file
read is passed as an `Except`: `Except.error e` models any exception
while opening/parsing the file. Returns the boolean result together with
the message given to `logger.error`, if any — the code logs the failure
and then fails open with `True`. `today` is `datetime.now().strftime(...)`. -/
def can_make_request (environ : Environ) (store : Except String UsageData)
    (today request_type : String) : Bool × Option String :=
  if is_demo_mode environ then (true, none)
  else
    match store with
    | .error e => (true, some ("Error checking request limits: " ++ e))
    | .ok data =>
        let today_usage := (data.usage.lookup today).getD []
        let current_usage := (today_usage.lookup request_type).getD 0
        let limit := (data.daily_limits.lookup request_type).getD 0
        (decide (current_usage < limit), none)

/-- Spec-side reading ("reads today's usage counter"): today's counter
for a request type, zero when absent. -/
def todayCount (data : UsageData) (today request_type : String) : Nat :=
  (((data.usage.lookup today).getD []).lookup request_type).getD 0

/-- Spec-side reading ("the configured daily limit defaulting to 0 when
the resource kind is unconfigured"). -/
def dailyLimit (data : UsageData) (request_type : String) : Nat :=
  (data.daily_limits.lookup request_type).getD 0

/- #### track_request under interleaving (cost_protection.py lines 77–108)

`track_request` reads the whole usage file, computes `current_count + 1`
for today's counter of the given request type, and writes the file back.
There is no file lock and no atomic section between the read and the
write. To make the lost-update behaviour provable we split one
`track_request` call into its two file operations and run an explicit
interleaving of several calls over the shared counter for one fixed
(request type, day). -/

/-- One file operation of a `track_request` call: `tid` identifies the
concurrent call. -/
inductive TrackOp where
  | readFile (tid : Nat)
  | writeFile (tid : Nat)
deriving DecidableEq, Repr

/-- Shared state of the interleaving: the persisted counter in the usage
file, plus each call's private snapshot (`current_count` as read). -/
structure TrackState where
  file : Nat
  snapshots : List (Option Nat)
deriving DecidableEq, Repr

/-- Execute one file operation: the read takes a snapshot of the
persisted counter; the write persists `snapshot + 1`
(cost_protection.py lines 92–93 and 102–103). -/
def trackStep (s : TrackState) : TrackOp → TrackState
  | .readFile tid => { s with snapshots := s.snapshots.set tid (some s.file) }
  | .writeFile tid =>
      match (s.snapshots.get? tid).bind id with
      | some current_count => { s with file := current_count + 1 }
      | none => s

/-- Run a schedule (an interleaving of the calls' file operations). -/
def trackRun (s : TrackState) (sched : List TrackOp) : TrackState :=
  sched.foldl trackStep s

end CostProtection

/- ### Orchestrator (services.py lines 211–243, routes.py lines 53–90) -/

namespace EmergencyAnalysisService

/-- The components of the cache key
`f"analysis_{scenario_type}_{hash(message.lower()[:100])}_{round(lat, 2)}_{round(lon, 2)}"`
(services.py line 216). The key is modelled by its component tuple:
Python's `hash` is deterministic within a process, so requests with equal
components always map to the same key string — the property every claim
in scope uses. (Hash collisions between distinct messages are not
modelled; no claim depends on them.) -/
structure Fingerprint where
  scenario_type : String
  msgKey : List Char
  lat2 : ℚ
  lon2 : ℚ
deriving DecidableEq, Repr

/-- Build the cache key components for a request. -/
def fingerprint (scenario_type message : String) (location : LocationContext) :
    Fingerprint :=
  { scenario_type := scenario_type
    msgKey := (pyLower message).data.take 100
    lat2 := round2 location.latitude
    lon2 := round2 location.longitude }

/-- The ambient configuration one orchestration call runs under: the
process environment plus the behaviour of the external provider on this
call. -/
structure ServiceEnv where
  environ : Environ
  outcome : AiOutcome

/-- `self.openai_api_key` truthiness (services.py lines 208, 227): the
variable must be set and non-empty. -/
def ServiceEnv.hasKey (e : ServiceEnv) : Bool :=
  match (e.environ : List (String × String)).lookup "OPENAI_API_KEY" with
  | some v => !(v == "")
  | none => false

/-- The demo-mode test of services.py line 227:
`os.getenv('DEMO_MODE', 'false').lower() == 'true'` — default "false"
here, unlike `CostProtection.is_demo_mode` whose default is "true". -/
def ServiceEnv.demoModeServices (e : ServiceEnv) : Bool :=
  pyLower (pyGetenv e.environ "DEMO_MODE" "false") == "true"

/-- The analysis the orchestrator computes on a cache miss
(services.py lines 226–230), paired with the number of external provider
calls it issues (the AI path posts exactly once, succeed or fail). -/
def compute_analysis (env : ServiceEnv) (message : String)
    (location : LocationContext) (scenario_type : String) :
    EnhancedResponse × Nat :=
  if env.hasKey && !(env.demoModeServices) then
    (ai_analysis message location scenario_type env.outcome, 1)
  else
    (enhanced_rule_based_analysis message location, 0)

/-- Observable state across orchestration calls: the module-level
`response_cache`, a counter of external provider calls issued (for the
dedup claims), and the cost-protection usage file shared with the route
layer. -/
structure OrchState where
  cache : CacheStore Fingerprint EnhancedResponse
  providerCalls : Nat
  usageFile : Except String CostProtection.UsageData

/-- `EmergencyAnalysisService.analyze_emergency` (services.py
lines 211–243): check the cache unless `force_new`, otherwise compute (AI
path when a key is set and demo mode is off, else rule-based) and cache
the result with a 300-second TTL. The outer `except` branch
(`_get_fallback_response`) is unreachable here because every callee is
total. -/
def analyze_emergency (st : OrchState) (now : Nat) (env : ServiceEnv)
    (message : String) (location : LocationContext) (scenario_type : String)
    (force_new : Bool) : EnhancedResponse × OrchState :=
  let cache_key := fingerprint scenario_type message location
  let cached :=
    if force_new then (none, st.cache)
    else SimpleCache.get st.cache now cache_key
  match cached with
  | (some cached_result, c) => (cached_result, { st with cache := c })
  | (none, c) =>
      let rc := compute_analysis env message location scenario_type
      let c := SimpleCache.set c now cache_key rc.1 300
      (rc.1, { st with cache := c, providerCalls := st.providerCalls + rc.2 })

/-- Insert-or-update on an association list, preserving order — Python
dict assignment `d[k] = v`. -/
def assocSet [BEq α] (l : List (α × β)) (k : α) (v : β) : List (α × β) :=
  if (l.lookup k).isSome then
    l.map (fun p => if p.1 == k then (k, v) else p)
  else l ++ [(k, v)]

/-- `CostProtection.track_request` when its read-modify-write completes
without interference (cost_protection.py lines 77–108, `cost = 0`):
increment today's counter for the request type. -/
def track_request_seq (data : CostProtection.UsageData)
    (today request_type : String) : CostProtection.UsageData :=
  let today_usage := (data.usage.lookup today).getD []
  let current_count := (today_usage.lookup request_type).getD 0
  { data with
    usage := assocSet data.usage today
      (assocSet today_usage request_type (current_count + 1)) }

/-- The `/emergency/analyze` handler `analyze_emergency_enhanced`
(routes.py lines 53–90): gate on `can_make_request("openai_requests")`
(HTTP 429 on refusal, modelled as `Except.error 429`), run the analysis,
then call `track_request("openai_requests")` unconditionally — note this
runs on cache hits too. The handler's in-place attachment of
`result["performance"]`/`result["timestamp"]` mutates the returned dict
and is modelled in the reference-semantics model below. -/
def analyze_emergency_enhanced (st : OrchState) (now : Nat) (today : String)
    (env : ServiceEnv) (message : String) (location : LocationContext)
    (scenario_type : String) (force_new : Bool) :
    Except Nat EnhancedResponse × OrchState :=
  if !(CostProtection.can_make_request env.environ st.usageFile today
        "openai_requests").1 then
    (Except.error 429, st)
  else
    let rs := analyze_emergency st now env message location scenario_type
      force_new
    let usageFile :=
      match rs.2.usageFile with
      | .ok data => .ok (track_request_seq data today "openai_requests")
      | .error e => (.error e : Except String CostProtection.UsageData)
    (Except.ok rs.1, { rs.2 with usageFile := usageFile })

/- ### Reference-semantics model of the cache (for the aliasing claim)

Python dicts are heap objects handled by reference: services.py line 233
passes to `response_cache.set` the very object returned to the caller on
line 239, and the route handler then mutates that object in place
(routes.py lines 78–83). To make this observable we give the same
orchestration step with an explicit heap: the cache stores a heap
address, the caller receives the same address. -/

/-- Heap-level state: allocated result objects (addresses are list
indices) and the cache mapping fingerprints to addresses. -/
structure HeapState where
  heap : List EnhancedResponse
  cache : CacheStore Fingerprint Nat

/-- `analyze_emergency`, reference semantics: identical control flow to
`analyze_emergency` above, except the computed result is allocated on
the heap and the cache stores — and the caller receives — its address. -/
def analyze_emergency_ref (hs : HeapState) (now : Nat) (env : ServiceEnv)
    (message : String) (location : LocationContext) (scenario_type : String)
    (force_new : Bool) : Nat × HeapState :=
  let cache_key := fingerprint scenario_type message location
  let cached :=
    if force_new then (none, hs.cache)
    else SimpleCache.get hs.cache now cache_key
  match cached with
  | (some addr, c) => (addr, { hs with cache := c })
  | (none, c) =>
      let rc := compute_analysis env message location scenario_type
      let addr := hs.heap.length
      let c := SimpleCache.set c now cache_key addr 300
      (addr, { heap := hs.heap ++ [rc.1], cache := c })

/-- Caller-side mutation of the object at `addr` (e.g. the route
handler's `result["performance"] = {...}`, or any other in-place update
of the returned dict). -/
def heapMutate (hs : HeapState) (addr : Nat)
    (f : EnhancedResponse → EnhancedResponse) : HeapState :=
  { hs with
    heap :=
      match hs.heap.get? addr with
      | some r => hs.heap.set addr (f r)
      | none => hs.heap }

/-- A later cache read for the fingerprint, dereferenced: what the next
request with the same fingerprint would be handed. -/
def cacheReadRef (hs : HeapState) (now : Nat) (key : Fingerprint) :
    Option EnhancedResponse :=
  match (SimpleCache.get hs.cache now key).1 with
  | some addr => hs.heap.get? addr
  | none => none

/- ### Result invariants (spec §3) -/

/-- The four severity tiers of the spec's AnalysisResult. -/
def severity_tiers : List String := ["critical", "high", "moderate", "low"]

/-- Spec §3 invariant on an analysis result: severity tier among the four
defined values, non-empty category, at most 6 first-aid steps. -/
def WellFormedResult (r : EnhancedResponse) : Prop :=
  r.severity_level ∈ severity_tiers ∧ r.accident_type ≠ "" ∧
    r.first_aid_tips.length ≤ 6

instance (r : EnhancedResponse) : Decidable (WellFormedResult r) :=
  inferInstanceAs (Decidable (_ ∧ _ ∧ _))

/-- The same invariant for the last-resort `AccidentReport`. -/
def WellFormedReport (r : AccidentReport) : Prop :=
  r.severity_level ∈ severity_tiers ∧ r.accident_type ≠ "" ∧
    r.first_aid_tips.length ≤ 6

instance (r : AccidentReport) : Decidable (WellFormedReport r) :=
  inferInstanceAs (Decidable (_ ∧ _ ∧ _))

/-- Today's persisted `openai_requests` counter as the route layer sees
it (zero when the usage file is unreadable). -/
def OrchState.openaiCount (st : OrchState) (today : String) : Nat :=
  match st.usageFile with
  | .ok data => CostProtection.todayCount data today "openai_requests"
  | .error _ => 0

end EmergencyAnalysisService

open EmergencyAnalysisService CostProtection

/- ### Concrete fixtures (shared by several witnesses) -/

/-- Environment with demo mode explicitly on. -/
def demoEnviron : Environ := [("DEMO_MODE", "true")]

/-- Environment for the live AI path: key set, demo mode off. -/
def liveEnviron : Environ := [("DEMO_MODE", "false"), ("OPENAI_API_KEY", "sk-test")]

/-- A concrete request location (address present, so the rule-based
result uses it verbatim). -/
def loc0 : LocationContext :=
  { latitude := 40, longitude := -74, address := some "123 Main St, Springfield" }

/-- A concrete emergency message. -/
def req0 : String := "chest pain and cant breathe"

/-- A concrete calendar day for the quota counters. -/
def day0 : String := "2026-10-12"

/-- Demo-mode service environment (provider never reached; outcome
irrelevant). -/
def env0 : ServiceEnv := { environ := demoEnviron, outcome := .timeout }

/-- Live service environment whose provider call always times out. -/
def envFail : ServiceEnv := { environ := liveEnviron, outcome := .timeout }

/-- Fresh usage file content: no usage yet, a 50-request OpenAI limit. -/
def usage0 : CostProtection.UsageData :=
  { usage := [], daily_limits := [("openai_requests", 50)] }

/-- Fresh orchestration state. -/
def st0 : OrchState :=
  { cache := CacheStore.empty _ _, providerCalls := 0, usageFile := .ok usage0 }

/- ### Helper lemmas -/

/-- Reading an absent key leaves the cache unchanged. -/
theorem SimpleCache.get_of_none [DecidableEq κ] (c : CacheStore κ V) (now : Nat)
    (key : κ) (h : c key = none) : SimpleCache.get c now key = (none, c) := by
  unfold SimpleCache.get
  rw [h]

/-- Reading a freshly written key before its expiry returns the stored
value and leaves the cache unchanged. -/
theorem SimpleCache.get_of_set [DecidableEq κ] (c : CacheStore κ V)
    (t ttl u : Nat) (key : κ) (v : V) (h : u < t + ttl) :
    SimpleCache.get (SimpleCache.set c t key v ttl) u key =
      (some v, SimpleCache.set c t key v ttl) := by
  unfold SimpleCache.get SimpleCache.set
  simp [h]

/-- A defaulted association-list lookup yields the default or one of the
stored values. -/
theorem lookup_getD_mem [BEq α] (k : α) (d : β) :
    ∀ l : List (α × β), (l.lookup k).getD d ∈ d :: l.map Prod.snd := by
  intro l
  induction l with
  | nil => simp [List.lookup]
  | cons p t ih =>
      obtain ⟨a, b⟩ := p
      rw [List.lookup]
      cases h : k == a
      · rcases List.mem_cons.mp ih with h1 | h1
        · simp [h1]
        · simp [h1]
      · simp

/-- The severity pass only ever produces one of its three literals. -/
theorem quick_severity_check_mem (message : String) :
    quick_severity_check message ∈ ["critical", "high", "moderate"] := by
  simp only [quick_severity_check]
  split
  · decide
  · split
    · decide
    · decide

/-- The classifier only ever produces the default or a declared category. -/
theorem enhanced_classify_emergency_mem (message : String) :
    enhanced_classify_emergency message ∈
      "General Emergency" :: emergency_patterns.map Prod.fst := by
  simp only [enhanced_classify_emergency]
  cases h : emergency_patterns.find?
      (fun p => p.2.any fun keyword => pyContains (pyLower message) keyword) with
  | none => simp [h]
  | some p =>
      exact List.mem_cons_of_mem _
        (List.mem_map_of_mem Prod.fst (List.mem_of_find?_eq_some h))

/-- First-aid tips are truncated to at most six entries. -/
theorem get_enhanced_first_aid_tips_length (a s : String) :
    (get_enhanced_first_aid_tips a s).length ≤ 6 := by
  unfold get_enhanced_first_aid_tips
  rw [List.length_take]
  exact min_le_left _ _

/-- The rule-based classifier always satisfies the §3 result invariant. -/
theorem enhanced_rule_based_analysis_wellFormed (message : String)
    (location : LocationContext) :
    WellFormedResult (enhanced_rule_based_analysis message location) := by
  refine ⟨?_, ?_, ?_⟩
  · exact (by decide :
        ∀ s ∈ ["critical", "high", "moderate"], s ∈ severity_tiers) _
      (quick_severity_check_mem message)
  · exact (by decide :
        ∀ s ∈ "General Emergency" :: emergency_patterns.map Prod.fst, s ≠ "") _
      (enhanced_classify_emergency_mem message)
  · exact get_enhanced_first_aid_tips_length _ _

/-- Writing a key makes the store hold it with expiry `now + ttl`. -/
theorem SimpleCache.set_same [DecidableEq κ] (c : CacheStore κ V) (now : Nat)
    (key : κ) (v : V) (ttl : Nat) :
    SimpleCache.set c now key v ttl key = some (v, now + ttl) := by
  unfold SimpleCache.set
  simp

/-- Updating the entry for a present key makes its lookup return the new
value. -/
theorem lookup_map_update [BEq α] [LawfulBEq α] (k : α) (v : β) :
    ∀ l : List (α × β), (l.lookup k).isSome = true →
      (l.map fun p => if p.1 == k then (k, v) else p).lookup k = some v
  | [], h => by simp [List.lookup] at h
  | (a, b) :: t, h => by
      rw [List.lookup] at h
      rw [List.map_cons]
      cases hk : k == a
      · rw [hk] at h
        have ha : (a == k) = false :=
          beq_eq_false_iff_ne.mpr (Ne.symm (beq_eq_false_iff_ne.mp hk))
        rw [ha]
        simp only [Bool.false_eq_true, if_false]
        rw [List.lookup, hk]
        exact lookup_map_update k v t h
      · have ha : (a == k) = true := by
          rw [beq_iff_eq] at hk ⊢
          exact hk.symm
        rw [ha]
        simp only [if_true]
        rw [List.lookup]
        simp

/-- Appending a key absent from the list makes its lookup return the
appended value. -/
theorem lookup_append_singleton [BEq α] [LawfulBEq α] (k : α) (v : β) :
    ∀ l : List (α × β), l.lookup k = none →
      (l ++ [(k, v)]).lookup k = some v
  | [], _ => by
      rw [List.nil_append, List.lookup]
      simp
  | (a, b) :: t, h => by
      rw [List.lookup] at h
      rw [List.cons_append, List.lookup]
      cases hk : k == a
      · rw [hk] at h
        exact lookup_append_singleton k v t h
      · rw [hk] at h
        simp at h

/-- Python dict assignment: after `assocSet l k v`, looking up `k`
returns `v`. -/
theorem lookup_assocSet [BEq α] [LawfulBEq α] (l : List (α × β)) (k : α) (v : β) :
    (assocSet l k v).lookup k = some v := by
  unfold assocSet
  split
  · exact lookup_map_update k v l (by assumption)
  · rename_i h
    exact lookup_append_singleton k v l (Option.not_isSome_iff_eq_none.mp h)

/-- A completed `track_request` increments today's counter for the given
request type by exactly one. -/
theorem track_request_seq_count (data : UsageData) (today kind : String) :
    todayCount (track_request_seq data today kind) today kind =
      todayCount data today kind + 1 := by
  unfold todayCount track_request_seq
  rw [lookup_assocSet]
  simp only [Option.getD_some]
  rw [lookup_assocSet]
  rfl

/-- The element appended at the end of a list sits at index `l.length`. -/
theorem get?_append_length (l : List α) (a : α) :
    (l ++ [a]).get? l.length = some a := by
  induction l with
  | nil => rfl
  | cons b t ih => exact ih

/-- Overwriting the appended element in place is visible at its index. -/
theorem get?_set_append_length (l : List α) (a b : α) :
    ((l ++ [a]).set l.length b).get? l.length = some b := by
  induction l with
  | nil => rfl
  | cons c t ih => exact ih

/- ### Claims -/

/-- C5: the message "chest pain and cant breathe" classifies as
"Cardiac Emergency" (the cardiac row precedes the respiratory row in
table order and "chest pain" matches it), its severity is "critical"
("chest pain" is in the critical keyword set, dominating the high-tier
keywords also present), and the derived priority label is
"Priority 1 (Life threatening)". -/
theorem chest_pain_scenario :
    enhanced_classify_emergency "chest pain and cant breathe" = "Cardiac Emergency" ∧
    quick_severity_check "chest pain and cant breathe" = "critical" ∧
    get_priority_level (quick_severity_check "chest pain and cant breathe") =
      "Priority 1 (Life threatening)" := by
  decide

/-- C7: an entry written with TTL `ttl` at time `t` is reported absent by
`get` at any time at or past `t + ttl`, and the expired entry is evicted
from the store by that read. -/
theorem cache_ttl_expiry {V : Type} (c : CacheStore String V) (t ttl now : Nat)
    (key : String) (data : V) (h : t + ttl ≤ now) :
    (SimpleCache.get (SimpleCache.set c t key data ttl) now key).1 = none ∧
    (SimpleCache.get (SimpleCache.set c t key data ttl) now key).2 key = none := by
  have hnl : ¬ now < t + ttl := Nat.not_lt.mpr h
  unfold SimpleCache.get SimpleCache.set
  simp [hnl]

/-- Witness for C7 at a concrete store, key, TTL 300 and read exactly at
expiry. -/
theorem cache_ttl_expiry_witness :
    (SimpleCache.get (SimpleCache.set (CacheStore.empty String Nat) 0 "fp" 42 300)
        300 "fp").1 = none ∧
    (SimpleCache.get (SimpleCache.set (CacheStore.empty String Nat) 0 "fp" 42 300)
        300 "fp").2 "fp" = none :=
  cache_ttl_expiry (CacheStore.empty String Nat) 0 300 300 "fp" 42 (by decide)

/-- C3: `can_make_request` returns true unconditionally in demo mode,
demo mode defaults to on when `DEMO_MODE` is unset, and outside demo mode
the check succeeds exactly when today's counter for the resource kind is
strictly below the configured limit, the limit defaulting to 0 for an
unconfigured kind. -/
theorem can_make_request_contract :
    (∀ (environ : Environ) (store : Except String UsageData) (today kind : String),
        is_demo_mode environ = true →
        (can_make_request environ store today kind).1 = true) ∧
    is_demo_mode [] = true ∧
    (∀ (environ : Environ) (data : UsageData) (today kind : String),
        is_demo_mode environ = false →
        ((can_make_request environ (Except.ok data) today kind).1 = true ↔
          todayCount data today kind < dailyLimit data kind)) ∧
    (∀ (data : UsageData) (kind : String),
        data.daily_limits.lookup kind = none → dailyLimit data kind = 0) := by
  refine ⟨?_, by decide, ?_, ?_⟩
  · intro environ store today kind h
    unfold can_make_request
    rw [h]
    simp
  · intro environ data today kind h
    unfold can_make_request
    rw [h]
    simp [todayCount, dailyLimit]
  · intro data kind h
    unfold dailyLimit
    rw [h]
    rfl

/-- Witness for C3: demo environment passes; live environment reduces to
the counter comparison. -/
theorem can_make_request_contract_witness :
    (can_make_request demoEnviron (Except.ok usage0) day0 "openai_requests").1 = true ∧
    ((can_make_request liveEnviron (Except.ok usage0) day0 "twilio_calls").1 = true ↔
      todayCount usage0 day0 "twilio_calls" < dailyLimit usage0 "twilio_calls") :=
  ⟨can_make_request_contract.1 demoEnviron (Except.ok usage0) day0 "openai_requests"
      (by decide),
   can_make_request_contract.2.2.1 liveEnviron usage0 day0 "twilio_calls" (by decide)⟩

/-- C8: when the usage-file read raises, `can_make_request` fails open
(returns true) for every resource kind, and — whenever the store is
actually consulted, i.e. outside demo mode — the failure is handed to the
error log, not swallowed. -/
theorem quota_check_fails_open (environ : Environ) (err today kind : String) :
    (can_make_request environ (Except.error err) today kind).1 = true ∧
    (is_demo_mode environ = false →
      (can_make_request environ (Except.error err) today kind).2 =
        some ("Error checking request limits: " ++ err)) := by
  unfold can_make_request
  cases h : is_demo_mode environ <;> simp [h]

/-- Witness for C8 with demo mode off and a concrete read error. -/
theorem quota_check_fails_open_witness :
    (can_make_request liveEnviron (Except.error "file corrupt") day0
        "openai_requests").1 = true ∧
    (can_make_request liveEnviron (Except.error "file corrupt") day0
        "openai_requests").2 =
      some ("Error checking request limits: " ++ "file corrupt") :=
  ⟨(quota_check_fails_open liveEnviron "file corrupt" day0 "openai_requests").1,
   (quota_check_fails_open liveEnviron "file corrupt" day0 "openai_requests").2
     (by decide)⟩

/-- C10: `track_request` is a read-modify-write of the usage file with no
synchronization. Two calls for the same resource kind and day, starting
from counter 0, leave the counter at 1 — not 2 — under the interleaving
read₀, read₁, write₀, write₁ (both calls snapshot 0 and both persist 1),
while the sequential order does reach 2. -/
theorem track_request_lost_update :
    (trackRun { file := 0, snapshots := [none, none] }
        [.readFile 0, .readFile 1, .writeFile 0, .writeFile 1]).file = 1 ∧
    (trackRun { file := 0, snapshots := [none, none] }
        [.readFile 0, .writeFile 0, .readFile 1, .writeFile 1]).file = 2 := by
  decide

/-- C4 counterexample: for the critical Cardiac Emergency the CPR step is
NOT prepended — `insert(1, ...)` places it second, after
"Call 911 immediately", so the head of the resulting list is not the CPR
step. -/
theorem critical_tip_not_prepended :
    get_enhanced_first_aid_tips "Cardiac Emergency" "critical" =
      ["Call 911 immediately", "Be prepared to perform CPR",
       "Have person sit down and rest", "Loosen tight clothing",
       "If unconscious, begin CPR", "Look for aspirin if not allergic"] ∧
    (get_enhanced_first_aid_tips "Cardiac Emergency" "critical").head? ≠
      some "Be prepared to perform CPR" := by
  decide

/-- C4 as amended: for every category, critical severity inserts the
CPR-readiness step at index 1 (after the first step of the category
table, not prepended), then truncates to exactly 6 entries from the
tail: the head and entries 1–4 of the base table survive (shifted by
one), the base table's 6th entry is dropped, and the CPR step sits at
its inserted position 1. -/
theorem critical_tip_insert_position (cat : String) :
    (get_enhanced_first_aid_tips cat "critical").length = 6 ∧
    (get_enhanced_first_aid_tips cat "critical").get? 0 =
      ((tips_map.lookup cat).getD default_tips).get? 0 ∧
    (get_enhanced_first_aid_tips cat "critical").get? 1 =
      some "Be prepared to perform CPR" ∧
    (get_enhanced_first_aid_tips cat "critical").get? 2 =
      ((tips_map.lookup cat).getD default_tips).get? 1 ∧
    (get_enhanced_first_aid_tips cat "critical").get? 3 =
      ((tips_map.lookup cat).getD default_tips).get? 2 ∧
    (get_enhanced_first_aid_tips cat "critical").get? 4 =
      ((tips_map.lookup cat).getD default_tips).get? 3 ∧
    (get_enhanced_first_aid_tips cat "critical").get? 5 =
      ((tips_map.lookup cat).getD default_tips).get? 4 := by
  have hEq : get_enhanced_first_aid_tips cat "critical" =
      (pyInsert 1 "Be prepared to perform CPR"
        ((tips_map.lookup cat).getD default_tips)).take 6 := rfl
  rw [hEq]
  have h := lookup_getD_mem cat default_tips tips_map
  set B := (tips_map.lookup cat).getD default_tips with hB
  clear_value B
  simp only [tips_map, default_tips, List.map_cons, List.map_nil, List.mem_cons,
    List.not_mem_nil, or_false] at h
  rcases h with h | h | h | h | h | h <;> subst h <;> decide

/-- C2: when the provider call fails (timeout, non-200 status, or any
exception) on a request the cache cannot answer, the pipeline returns
exactly the deterministic rule-based classifier's result, that result is
well-formed, and — the Lean functions being total — no exception reaches
the caller. -/
theorem fallback_guarantee (st : OrchState) (now : Nat) (env : ServiceEnv)
    (message : String) (location : LocationContext) (scenario_type : String)
    (force_new : Bool) (hfail : env.outcome.isFailure = true)
    (hmiss : st.cache (fingerprint scenario_type message location) = none) :
    (analyze_emergency st now env message location scenario_type force_new).1 =
      enhanced_rule_based_analysis message location ∧
    WellFormedResult
      (analyze_emergency st now env message location scenario_type force_new).1 := by
  have hcomp : (compute_analysis env message location scenario_type).1 =
      enhanced_rule_based_analysis message location := by
    unfold compute_analysis
    split
    · cases ho : env.outcome with
      | ok raw => rw [ho] at hfail; simp [AiOutcome.isFailure] at hfail
      | badStatus code => rfl
      | timeout => rfl
      | failure => rfl
    · rfl
  have h1 : (analyze_emergency st now env message location scenario_type
      force_new).1 = enhanced_rule_based_analysis message location := by
    cases force_new with
    | true => exact hcomp
    | false =>
        simp only [analyze_emergency, Bool.false_eq_true, if_false,
          SimpleCache.get_of_none st.cache now _ hmiss]
        exact hcomp
  exact ⟨h1, h1 ▸ enhanced_rule_based_analysis_wellFormed message location⟩

/-- Witness for C2: live environment whose provider call always times
out, fresh state, concrete request. -/
theorem fallback_guarantee_witness :
    (analyze_emergency st0 0 envFail req0 loc0 "demo-cardiac" false).1 =
      enhanced_rule_based_analysis req0 loc0 ∧
    WellFormedResult
      (analyze_emergency st0 0 envFail req0 loc0 "demo-cardiac" false).1 :=
  fallback_guarantee st0 0 envFail req0 loc0 "demo-cardiac" false (by decide) rfl

/-- C6 counterexample: the AI path copies the provider's `severity`
field without validating it, so a provider reply with severity "extreme"
(HTTP 200, otherwise empty JSON) yields a result whose severity tier is
outside the four defined values — the invariant fails on the AI path. -/
theorem result_invariant_counterexample :
    ¬ WellFormedResult (ai_analysis "help" loc0 "custom-emergency"
        (.ok { severity := some "extreme" })) := by
  decide

/-- C6 as amended: the invariant (severity among the four tiers,
non-empty category, at most 6 first-aid steps) holds for every result of
the rule-based classifier and of the last-resort fallback, and the
first-aid bound holds on every AI-path result; but the AI path's severity
and category are provider-controlled, satisfying the invariant only when
the provider's severity field defaults or lies in the four tiers and its
category field is not the empty string. -/
theorem result_invariant_amended :
    (∀ (message : String) (location : LocationContext),
        WellFormedResult (enhanced_rule_based_analysis message location)) ∧
    (∀ (message : String) (location : LocationContext),
        WellFormedReport (get_fallback_response message location)) ∧
    (∀ (message scenario_type : String) (location : LocationContext)
        (outcome : AiOutcome),
        (ai_analysis message location scenario_type outcome).first_aid_tips.length ≤ 6) ∧
    (∀ (message scenario_type : String) (location : LocationContext) (raw : AiRaw),
        raw.severity.getD "moderate" ∈ severity_tiers →
        raw.emergency_type ≠ some "" →
        WellFormedResult (ai_analysis message location scenario_type (.ok raw))) := by
  refine ⟨enhanced_rule_based_analysis_wellFormed, ?_, ?_, ?_⟩
  · intro message location
    exact ⟨show "moderate" ∈ severity_tiers by decide,
           show ("Emergency Situation" : String) ≠ "" by decide,
           show (5 : Nat) ≤ 6 by decide⟩
  · intro message scenario_type location outcome
    cases outcome with
    | ok raw =>
        show ((raw.first_aid_steps.getD []).take 6).length ≤ 6
        rw [List.length_take]
        exact min_le_left _ _
    | badStatus code => exact (enhanced_rule_based_analysis_wellFormed _ _).2.2
    | timeout => exact (enhanced_rule_based_analysis_wellFormed _ _).2.2
    | failure => exact (enhanced_rule_based_analysis_wellFormed _ _).2.2
  · intro message scenario_type location raw hsev hcat
    refine ⟨hsev, ?_, ?_⟩
    · show raw.emergency_type.getD "Emergency Situation" ≠ ""
      cases hc : raw.emergency_type with
      | none => decide
      | some t =>
          intro he
          exact hcat (by rw [hc]; exact congrArg some he)
    · show ((raw.first_aid_steps.getD []).take 6).length ≤ 6
      rw [List.length_take]
      exact min_le_left _ _

/-- On a cache miss (with `force_new = false`) the orchestrator computes
the analysis, caches it under the fingerprint with TTL 300, and counts
the provider calls of the chosen path. -/
theorem analyze_emergency_miss (st : OrchState) (now : Nat) (env : ServiceEnv)
    (message : String) (location : LocationContext) (scenario_type : String)
    (hmiss : st.cache (fingerprint scenario_type message location) = none) :
    analyze_emergency st now env message location scenario_type false =
      ((compute_analysis env message location scenario_type).1,
       { st with
         cache := SimpleCache.set st.cache now
           (fingerprint scenario_type message location)
           (compute_analysis env message location scenario_type).1 300,
         providerCalls := st.providerCalls +
           (compute_analysis env message location scenario_type).2 }) := by
  simp only [analyze_emergency, Bool.false_eq_true, if_false,
    SimpleCache.get_of_none st.cache now _ hmiss]

/-- On a fresh cache hit (with `force_new = false`) the orchestrator
returns the cached result and leaves the state unchanged. -/
theorem analyze_emergency_hit (st : OrchState) (now : Nat) (env : ServiceEnv)
    (message : String) (location : LocationContext) (scenario_type : String)
    (r : EnhancedResponse) (e : Nat)
    (hhit : st.cache (fingerprint scenario_type message location) = some (r, e))
    (ht : now < e) :
    analyze_emergency st now env message location scenario_type false = (r, st) := by
  simp only [analyze_emergency, Bool.false_eq_true, if_false]
  unfold SimpleCache.get
  rw [hhit]
  simp [ht]

/-- Witness for C6 as amended: the rule-based path on the concrete
request, and an AI reply whose fields satisfy the stated conditions. -/
theorem result_invariant_amended_witness :
    WellFormedResult (enhanced_rule_based_analysis req0 loc0) ∧
    WellFormedResult (ai_analysis "trapped in car" loc0 "custom-emergency"
      (.ok { severity := some "high", emergency_type := some "Vehicle Accident" })) :=
  ⟨result_invariant_amended.1 req0 loc0,
   result_invariant_amended.2.2.2 "trapped in car" "custom-emergency" loc0
     { severity := some "high", emergency_type := some "Vehicle Accident" }
     (by decide) (by decide)⟩

/-- A state with a usage file holds today\x27s counter read from it. -/
theorem openaiCount_ok (st : OrchState) (data : UsageData) (today : String)
    (h : st.usageFile = Except.ok data) :
    st.openaiCount today = todayCount data today "openai_requests" := by
  unfold OrchState.openaiCount
  rw [h]

/-- Route handler on a cache miss, with quota available: runs the
analysis, caches it, and tracks one request. -/
theorem route_miss (st : OrchState) (now : Nat) (today : String)
    (env : ServiceEnv) (message : String) (location : LocationContext)
    (scenario_type : String) (data : UsageData)
    (hq : (can_make_request env.environ st.usageFile today "openai_requests").1 = true)
    (hfile : st.usageFile = Except.ok data)
    (hmiss : st.cache (fingerprint scenario_type message location) = none) :
    analyze_emergency_enhanced st now today env message location scenario_type false =
      (Except.ok (compute_analysis env message location scenario_type).1,
       { cache := SimpleCache.set st.cache now
           (fingerprint scenario_type message location)
           (compute_analysis env message location scenario_type).1 300,
         providerCalls := st.providerCalls +
           (compute_analysis env message location scenario_type).2,
         usageFile := Except.ok (track_request_seq data today "openai_requests") }) := by
  rw [hfile] at hq
  simp only [analyze_emergency_enhanced, hq, Bool.not_true, Bool.false_eq_true,
    if_false, analyze_emergency_miss st now env message location scenario_type hmiss,
    hfile]

/-- Route handler on a fresh cache hit, with quota available: returns the
cached result unchanged — and still tracks one request. -/
theorem route_hit (st : OrchState) (now : Nat) (today : String)
    (env : ServiceEnv) (message : String) (location : LocationContext)
    (scenario_type : String) (r : EnhancedResponse) (e : Nat) (data : UsageData)
    (hq : (can_make_request env.environ st.usageFile today "openai_requests").1 = true)
    (hfile : st.usageFile = Except.ok data)
    (hhit : st.cache (fingerprint scenario_type message location) = some (r, e))
    (ht : now < e) :
    analyze_emergency_enhanced st now today env message location scenario_type false =
      (Except.ok r,
       { st with usageFile := Except.ok (track_request_seq data today "openai_requests") }) := by
  rw [hfile] at hq
  simp only [analyze_emergency_enhanced, hq, Bool.not_true, Bool.false_eq_true,
    if_false, analyze_emergency_hit st now env message location scenario_type r e hhit ht,
    hfile]

/-- First route call on fresh state: demo mode, cache miss, time 0. -/
def run1 : Except Nat EnhancedResponse × OrchState :=
  analyze_emergency_enhanced st0 0 day0 env0 req0 loc0 "demo-cardiac" false

/-- Second, identical route call 10 seconds later: a cache hit. -/
def run2 : Except Nat EnhancedResponse × OrchState :=
  analyze_emergency_enhanced run1.2 10 day0 env0 req0 loc0 "demo-cardiac" false

/-- C1 counterexample: the route layer calls `track_request`
unconditionally after a successful analysis, so the second, cache-hitting
call with identical inputs inside the TTL window — which returns the
identical result and issues zero provider calls — still increments the
persisted quota counter from 1 to 2 instead of performing zero quota
increments. -/
theorem cache_hit_still_tracks_quota :
    run1.2.openaiCount day0 = 1 ∧
    run2.2.openaiCount day0 = 2 ∧
    run2.2.providerCalls = run1.2.providerCalls ∧
    run2.1.toOption = run1.1.toOption ∧
    run1.1.toOption.isSome = true := by
  have h1 : run1 =
      (Except.ok (compute_analysis env0 req0 loc0 "demo-cardiac").1,
       { cache := SimpleCache.set st0.cache 0 (fingerprint "demo-cardiac" req0 loc0)
           (compute_analysis env0 req0 loc0 "demo-cardiac").1 300,
         providerCalls := st0.providerCalls +
           (compute_analysis env0 req0 loc0 "demo-cardiac").2,
         usageFile := Except.ok (track_request_seq usage0 day0 "openai_requests") }) :=
    route_miss st0 0 day0 env0 req0 loc0 "demo-cardiac" usage0 (by decide) rfl rfl
  have hhit : run1.2.cache (fingerprint "demo-cardiac" req0 loc0) =
      some ((compute_analysis env0 req0 loc0 "demo-cardiac").1, 0 + 300) := by
    rw [h1]
    exact SimpleCache.set_same _ _ _ _ _
  have hfile1 : run1.2.usageFile =
      Except.ok (track_request_seq usage0 day0 "openai_requests") := by
    rw [h1]
  have h2 : run2 =
      (Except.ok (compute_analysis env0 req0 loc0 "demo-cardiac").1,
       { run1.2 with usageFile := Except.ok (track_request_seq
           (track_request_seq usage0 day0 "openai_requests") day0 "openai_requests") }) :=
    route_hit run1.2 10 day0 env0 req0 loc0 "demo-cardiac"
      (compute_analysis env0 req0 loc0 "demo-cardiac").1 (0 + 300)
      (track_request_seq usage0 day0 "openai_requests")
      (by rw [hfile1]; decide) hfile1 hhit (by decide)
  refine ⟨?_, ?_, ?_, ?_, ?_⟩
  · rw [openaiCount_ok run1.2 _ day0 hfile1]
    decide
  · have hfile2 : run2.2.usageFile = Except.ok (track_request_seq
        (track_request_seq usage0 day0 "openai_requests") day0 "openai_requests") := by
      rw [h2]
    rw [openaiCount_ok run2.2 _ day0 hfile2]
    decide
  · rw [h2]
  · rw [h2, h1]
  · rw [h1]
    rfl

/-- C1 as amended: calling the pipeline twice with the same normalized
message prefix, the same location rounded to two decimals, and the same
scenario tag within the 300-second TTL window (with `forceRefresh`
false and quota available) returns the identical cached result on the
second call and performs zero external provider calls there — but the
route layer performs one quota increment per request, cache hit or not,
so the second call increments the counter by one rather than zero. -/
theorem cache_idempotence_amended (st : OrchState) (t u : Nat) (today : String)
    (env : ServiceEnv) (m1 m2 scenario_type : String) (l1 l2 : LocationContext)
    (data : UsageData)
    (hmsg : (pyLower m2).data.take 100 = (pyLower m1).data.take 100)
    (hlat : round2 l2.latitude = round2 l1.latitude)
    (hlon : round2 l2.longitude = round2 l1.longitude)
    (hmiss : st.cache (fingerprint scenario_type m1 l1) = none)
    (hfile : st.usageFile = Except.ok data)
    (hquota1 : (can_make_request env.environ st.usageFile today
        "openai_requests").1 = true)
    (hquota2 : (can_make_request env.environ
        (analyze_emergency_enhanced st t today env m1 l1 scenario_type false).2.usageFile
        today "openai_requests").1 = true)
    (ht : u < t + 300) :
    (analyze_emergency_enhanced
        (analyze_emergency_enhanced st t today env m1 l1 scenario_type false).2
        u today env m2 l2 scenario_type false).1 =
      (analyze_emergency_enhanced st t today env m1 l1 scenario_type false).1 ∧
    (analyze_emergency_enhanced
        (analyze_emergency_enhanced st t today env m1 l1 scenario_type false).2
        u today env m2 l2 scenario_type false).2.providerCalls =
      (analyze_emergency_enhanced st t today env m1 l1 scenario_type false).2.providerCalls ∧
    (analyze_emergency_enhanced
        (analyze_emergency_enhanced st t today env m1 l1 scenario_type false).2
        u today env m2 l2 scenario_type false).2.openaiCount today =
      (analyze_emergency_enhanced st t today env m1 l1 scenario_type false).2.openaiCount
        today + 1 := by
  have hkey : fingerprint scenario_type m2 l2 = fingerprint scenario_type m1 l1 := by
    unfold fingerprint
    rw [hmsg, hlat, hlon]
  have h1 := route_miss st t today env m1 l1 scenario_type data hquota1 hfile hmiss
  have hfile1 : (analyze_emergency_enhanced st t today env m1 l1 scenario_type
      false).2.usageFile = Except.ok (track_request_seq data today "openai_requests") := by
    rw [h1]
  have hhit : (analyze_emergency_enhanced st t today env m1 l1 scenario_type
      false).2.cache (fingerprint scenario_type m2 l2) =
      some ((compute_analysis env m1 l1 scenario_type).1, t + 300) := by
    rw [h1, hkey]
    exact SimpleCache.set_same _ _ _ _ _
  have h2 := route_hit
    (analyze_emergency_enhanced st t today env m1 l1 scenario_type false).2
    u today env m2 l2 scenario_type (compute_analysis env m1 l1 scenario_type).1
    (t + 300) (track_request_seq data today "openai_requests")
    hquota2 hfile1 hhit ht
  refine ⟨?_, ?_, ?_⟩
  · rw [h2, h1]
  · rw [h2]
  · have hfile2 : (analyze_emergency_enhanced
        (analyze_emergency_enhanced st t today env m1 l1 scenario_type false).2
        u today env m2 l2 scenario_type false).2.usageFile =
        Except.ok (track_request_seq (track_request_seq data today "openai_requests")
          today "openai_requests") := by
      rw [h2]
    rw [openaiCount_ok _ _ _ hfile2, openaiCount_ok _ _ _ hfile1,
      track_request_seq_count]

/-- Witness for C1 as amended: the two concrete demo-mode route calls of
the run fixtures, 10 seconds apart. -/
theorem cache_idempotence_amended_witness :
    run2.1 = run1.1 ∧
    run2.2.providerCalls = run1.2.providerCalls ∧
    run2.2.openaiCount day0 = run1.2.openaiCount day0 + 1 :=
  cache_idempotence_amended st0 0 10 day0 env0 req0 req0 "demo-cardiac" loc0 loc0
    usage0 rfl rfl rfl rfl rfl (by decide) (by decide) (by decide)

/-- Reference-semantics orchestrator on a cache miss: allocates the
computed result at the next heap address, caches that address, returns it. -/
theorem analyze_emergency_ref_miss (hs : HeapState) (now : Nat) (env : ServiceEnv)
    (message : String) (location : LocationContext) (scenario_type : String)
    (hmiss : hs.cache (fingerprint scenario_type message location) = none) :
    analyze_emergency_ref hs now env message location scenario_type false =
      (hs.heap.length,
       { heap := hs.heap ++ [(compute_analysis env message location scenario_type).1],
         cache := SimpleCache.set hs.cache now
           (fingerprint scenario_type message location) hs.heap.length 300 }) := by
  simp only [analyze_emergency_ref, Bool.false_eq_true, if_false,
    SimpleCache.get_of_none hs.cache now _ hmiss]

/-- Fresh heap-model state. -/
def hs0 : HeapState := { heap := [], cache := CacheStore.empty Fingerprint Nat }

/-- Caller-side in-place mutation: overwrite the `details` field of the
returned result object (as the route handler mutates the returned dict
in place). -/
def mutDetails (r : EnhancedResponse) : EnhancedResponse :=
  { r with details := "MUTATED" }

/-- The concrete first call against the heap-model state. -/
def ref1 : Nat × HeapState :=
  analyze_emergency_ref hs0 0 env0 req0 loc0 "demo-cardiac" false

/-- C9 counterexample: the cache stores the very object returned to the
caller, not a copy — after the pipeline returns, mutating the returned
result changes the value a subsequent cache `get` for the same
fingerprint hands out (details flip from the original analysis text to
"MUTATED"). -/
theorem cache_alias_counterexample :
    (ref1.2.heap.get? ref1.1).map EnhancedResponse.details =
      some ("Enhanced Analysis: " ++ req0) ∧
    (cacheReadRef (heapMutate ref1.2 ref1.1 mutDetails) 10
        (fingerprint "demo-cardiac" req0 loc0)).map EnhancedResponse.details =
      some "MUTATED" ∧
    ("MUTATED" : String) ≠ "Enhanced Analysis: " ++ req0 := by
  have hrun := analyze_emergency_ref_miss hs0 0 env0 req0 loc0 "demo-cardiac" rfl
  refine ⟨?_, ?_, by decide⟩
  · unfold ref1
    rw [hrun]
    rw [get?_append_length]
    rfl
  · unfold ref1
    rw [hrun]
    dsimp only
    unfold heapMutate
    dsimp only
    rw [get?_append_length]
    dsimp only
    unfold cacheReadRef
    dsimp only
    rw [SimpleCache.get_of_set _ _ _ _ _ _ (by decide : (10 : Nat) < 0 + 300)]
    dsimp only
    rw [get?_set_append_length]
    rfl

/-- C9 as amended: on a cache miss the cache comes to hold the address of
the very result object handed to the caller, so any caller-side mutation
of the returned result is visible to every subsequent cache read for the
same fingerprint within the TTL — the cache does not hold an independent
copy. -/
theorem cache_alias_amended (hs : HeapState) (t u : Nat) (env : ServiceEnv)
    (message : String) (location : LocationContext) (scenario_type : String)
    (f : EnhancedResponse → EnhancedResponse)
    (hmiss : hs.cache (fingerprint scenario_type message location) = none)
    (ht : u < t + 300) :
    ((analyze_emergency_ref hs t env message location scenario_type false).2.heap.get?
        (analyze_emergency_ref hs t env message location scenario_type false).1) =
      some (compute_analysis env message location scenario_type).1 ∧
    cacheReadRef
      (heapMutate (analyze_emergency_ref hs t env message location scenario_type false).2
        (analyze_emergency_ref hs t env message location scenario_type false).1 f)
      u (fingerprint scenario_type message location) =
      some (f (compute_analysis env message location scenario_type).1) := by
  have hrun := analyze_emergency_ref_miss hs t env message location scenario_type hmiss
  constructor
  · rw [hrun]
    exact get?_append_length _ _
  · rw [hrun]
    dsimp only
    unfold heapMutate
    dsimp only
    rw [get?_append_length]
    dsimp only
    unfold cacheReadRef
    dsimp only
    rw [SimpleCache.get_of_set _ _ _ _ _ _ ht]
    dsimp only
    exact get?_set_append_length _ _ _

/-- Witness for C9 as amended: concrete mutation of the `details` field
after the concrete first call. -/
theorem cache_alias_amended_witness :
    ((analyze_emergency_ref hs0 0 env0 req0 loc0 "demo-cardiac" false).2.heap.get?
        (analyze_emergency_ref hs0 0 env0 req0 loc0 "demo-cardiac" false).1) =
      some (compute_analysis env0 req0 loc0 "demo-cardiac").1 ∧
    cacheReadRef
      (heapMutate (analyze_emergency_ref hs0 0 env0 req0 loc0 "demo-cardiac" false).2
        (analyze_emergency_ref hs0 0 env0 req0 loc0 "demo-cardiac" false).1 mutDetails)
      10 (fingerprint "demo-cardiac" req0 loc0) =
      some (mutDetails (compute_analysis env0 req0 loc0 "demo-cardiac").1) :=
  cache_alias_amended hs0 0 10 env0 req0 loc0 "demo-cardiac" mutDetails rfl (by decide)

